import Mathlib

/-!
Shallow embedding of the notion-document-store repository.

Python strings are modelled as `List Char` (sequences of code points,
restricted to the ASCII behaviour of `str.strip`, `str.lower` and
`int(_, 16)` that the verified properties exercise).  Pure helper
functions come from `modules/data_types.py`; the request engine and the
document operations come from `modules/notion_client.py`; the tool
boundary comes from `server.py`.
-/

/-- Python strings, modelled as lists of characters. -/
abbrev PyStr := List Char

/-- Characters removed by Python `str.strip()` (ASCII whitespace). -/
def isPySpace (c : Char) : Bool :=
  c = ' ' || c = '\t' || c = '\n' || c = '\r' || c = Char.ofNat 11 || c = Char.ofNat 12

/-- Python `str.strip()`: drop leading and trailing whitespace. -/
def pyStrip (s : PyStr) : PyStr :=
  ((s.dropWhile isPySpace).reverse.dropWhile isPySpace).reverse

/-- Single-character case folding performed by Python `str.lower()`
(ASCII range, which is all the verified properties exercise). -/
def pyLower (c : Char) : Char :=
  if c.toNat ≥ 65 ∧ c.toNat ≤ 90 then Char.ofNat (c.toNat + 32) else c

/-- Python `needle in hay` substring test on strings. -/
def containsSub (needle : PyStr) : PyStr → Bool
  | [] => needle.isEmpty
  | c :: rest => needle.isPrefixOf (c :: rest) || containsSub needle rest

/-- Hex digits accepted by `int(_, 16)` for a single digit position. -/
def isHexDigitPy (c : Char) : Bool :=
  ('0' ≤ c && c ≤ '9') || ('a' ≤ c && c ≤ 'f') || ('A' ≤ c && c ≤ 'F')

/-- Digit run of a base-16 Python int literal after the first digit:
single underscores are allowed between digits. -/
def hexDigitsTail : PyStr → Bool
  | [] => true
  | '_' :: c :: rest => isHexDigitPy c && hexDigitsTail rest
  | '_' :: [] => false
  | c :: rest => isHexDigitPy c && hexDigitsTail rest

/-- Nonempty digit run of a base-16 Python int literal. -/
def hexDigits : PyStr → Bool
  | [] => false
  | c :: rest => isHexDigitPy c && hexDigitsTail rest

/-- Body of a base-16 Python int literal after an optional sign: an
optional `0x`/`0X` prefix (which may be followed by one underscore)
and then a digit run. -/
def hexAfterSign (l : PyStr) : Bool :=
  match l with
  | '0' :: x :: rest =>
    if x = 'x' || x = 'X' then
      match rest with
      | '_' :: rest2 => hexDigits rest2
      | _ => hexDigits rest
    else hexDigits l
  | _ => hexDigits l

/-- Modelled acceptance of CPython `int(s, 16)` (ASCII fragment):
surrounding whitespace, an optional sign, an optional `0x`/`0X` prefix
and underscores between digits are all accepted. -/
def pyIntHex16Ok (s : PyStr) : Bool :=
  let t := ((s.dropWhile isPySpace).reverse.dropWhile isPySpace).reverse
  match t with
  | '+' :: rest => hexAfterSign rest
  | '-' :: rest => hexAfterSign rest
  | _ => hexAfterSign t

/-- Translation of `data_types.validate_notion_page_id`: reject empty
input, strip hyphens, require 32 remaining characters, then accept
exactly when `int(clean_id, 16)` succeeds. -/
def validate_notion_page_id (page_id : PyStr) : Bool :=
  if page_id = [] then false
  else
    let clean_id := page_id.filter (fun c => c ≠ '-')
    if clean_id.length ≠ 32 then false
    else pyIntHex16Ok clean_id

/-- Translation of `data_types.format_notion_url`: strip hyphens and
re-group as 8-4-4-4-12 below the notion.so base URL. -/
def format_notion_url (page_id : PyStr) : PyStr :=
  let clean_id := page_id.filter (fun c => c ≠ '-')
  "https://www.notion.so/".toList ++
    clean_id.take 8 ++ ['-'] ++ ((clean_id.drop 8).take 4) ++ ['-'] ++
    ((clean_id.drop 12).take 4) ++ ['-'] ++ ((clean_id.drop 16).take 4) ++ ['-'] ++
    clean_id.drop 20

/-- Normalisation of one tag inside `data_types.sanitize_tags`:
`tag.strip().lower()[:50]`. -/
def normalizeTag (t : PyStr) : PyStr :=
  ((pyStrip t).map pyLower).take 50

/-- Accumulating loop of `data_types.sanitize_tags`: keep a normalised
tag when it is nonempty and not already collected. -/
def sanitizeAux (acc : List PyStr) : List PyStr → List PyStr
  | [] => acc
  | t :: rest =>
    if pyStrip t ≠ [] then
      if normalizeTag t ≠ [] ∧ normalizeTag t ∉ acc then sanitizeAux (acc ++ [normalizeTag t]) rest
      else sanitizeAux acc rest
    else sanitizeAux acc rest

/-- Translation of `data_types.sanitize_tags`: normalise, deduplicate,
and cap the result at 10 tags. -/
def sanitize_tags (tags : List PyStr) : List PyStr :=
  (sanitizeAux [] tags).take 10

/-- First line of a Python string: `content.split('\n')[0]`. -/
def firstLine (content : PyStr) : PyStr :=
  content.takeWhile (fun c => c ≠ '\n')

/-- Translation of `data_types.extract_title_from_content`: empty
content gives the placeholder; otherwise the stripped first line is
used, truncated to `max_length` with a three-dot ellipsis when cut;
a blank first line also gives the placeholder. -/
def extract_title_from_content (content : PyStr) (max_length : Nat := 100) : PyStr :=
  if content = [] then "Untitled Document".toList
  else
    let first_line := pyStrip (firstLine content)
    if first_line ≠ [] then
      if first_line.length > max_length then first_line.take (max_length - 3) ++ "...".toList
      else first_line
    else "Untitled Document".toList

/-- Title normalisation at the top of `NotionClient.add_document`:
an empty or whitespace-only title is replaced by
`extract_title_from_content(content)`. -/
def add_document_title (title content : PyStr) : PyStr :=
  if pyStrip title = [] then extract_title_from_content content else title

/-- JSON values, the payload type of backend responses. -/
inductive J where
  | jnull
  | jbool (b : Bool)
  | jnum (n : Int)
  | jstr (s : PyStr)
  | jarr (xs : List J)
  | jobj (kvs : List (PyStr × J))

/-- Retry strategies of `notion_client.RetryStrategy`. -/
inductive RetryStrategy where
  | NO_RETRY
  | EXPONENTIAL_BACKOFF
  | RATE_LIMIT_BACKOFF
deriving DecidableEq

/-- Translation of `NotionClient._determine_retry_strategy`: 429 maps
to rate-limit backoff, 5xx to exponential backoff, 401/403/404 to
no-retry, an error-type hint containing "timeout" or "network" (case
insensitively) to exponential backoff, anything else to no-retry. -/
def determine_retry_strategy (status_code : Nat) (error_type : PyStr) : RetryStrategy :=
  if status_code = 429 then .RATE_LIMIT_BACKOFF
  else if status_code ≥ 500 then .EXPONENTIAL_BACKOFF
  else if status_code ∈ [401, 403, 404] then .NO_RETRY
  else if containsSub "timeout".toList (error_type.map pyLower) ||
          containsSub "network".toList (error_type.map pyLower) then .EXPONENTIAL_BACKOFF
  else .NO_RETRY

/-- Performance metrics dictionary of `NotionClient`. -/
structure Metrics where
  requests_total : Nat
  requests_success : Nat
  requests_failed : Nat
  average_response_time : ℚ
  retry_count : Nat
deriving DecidableEq, Repr

/-- Metrics dictionary as initialised in `NotionClient.__init__`. -/
def Metrics.init : Metrics :=
  { requests_total := 0, requests_success := 0, requests_failed := 0,
    average_response_time := 0, retry_count := 0 }

/-- Translation of `NotionClient._update_response_time_metric`: the
first success stores the elapsed time, later successes fold it into the
running average. -/
def update_response_time_metric (m : Metrics) (response_time : ℚ) : Metrics :=
  let current_avg := m.average_response_time
  let current_count := m.requests_success
  if current_count = 1 then { m with average_response_time := response_time }
  else
    { m with average_response_time :=
        (current_avg * ((current_count : ℚ) - 1) + response_time) / (current_count : ℚ) }

/-- Success-path metrics transition of `_make_request` (lines 178-179):
increment the success counter, then update the running average. -/
def record_success (m : Metrics) (response_time : ℚ) : Metrics :=
  update_response_time_metric { m with requests_success := m.requests_success + 1 } response_time

/-- Semantic content of the messages carried by `NotionAPIError`. -/
inductive ErrMsg where
  | apiError (backendMessage : Option J)
  | apiErrorAfterRetries (retries : Nat) (backendMessage : Option J)
  | timeoutAfterRetries (retries : Nat)
  | networkAfterRetries (retries : Nat) (exnText : PyStr)
  | maxRetriesUnknown
  | invalidPageId (page_id : PyStr)

/-- Structured error of `notion_client.NotionAPIError`. -/
structure NotionAPIErrorS where
  message : ErrMsg
  status_code : Option Nat
  details : Option J

/-- Exceptions that can escape `_make_request`: a `NotionAPIError`, or
the json-decode error raised by `response.json()` on a 200 response
whose body is not valid JSON. -/
inductive Exn where
  | api (e : NotionAPIErrorS)
  | jsonDecode

/-- One physical attempt outcome observed by `_make_request`: an HTTP
response (with status, optional parsed JSON body, raw text, optional
numeric Retry-After header, and the elapsed time measured at that
attempt), a timeout, or a transport error. -/
inductive Attempt where
  | httpResp (status : Nat) (body : Option J) (text : PyStr)
      (retryAfterHeader : Option Nat) (elapsed : ℚ)
  | timeout
  | netErr (exnText : PyStr)

/-- Error body used by `_make_request`: the parsed JSON body, or the
fallback dictionary holding the raw response text. -/
def errorDataOf (body : Option J) (text : PyStr) : J :=
  body.getD (J.jobj [("message".toList, J.jstr text)])

/-- Extraction of `error_data.get("code", "unknown")` as the error-type
hint (string-valued codes, which is what the backend sends). -/
def errorCodeOf (d : J) : PyStr :=
  match d with
  | .jobj kvs =>
    match kvs.lookup "code".toList with
    | some (J.jstr s) => s
    | _ => "unknown".toList
  | _ => "unknown".toList

/-- Extraction of `error_data.get("message")` for error reporting. -/
def errorMessageOf (d : J) : Option J :=
  match d with
  | .jobj kvs => kvs.lookup "message".toList
  | _ => none

/-- Result of one logical `_make_request` call, before pacing state is
folded back in: payload or exception, updated metrics, and the backoff
sleeps performed between attempts (in seconds). -/
structure ReqOutcome where
  result : Except Exn J
  metrics : Metrics
  backoffSleeps : List Nat

/-- Retry loop of `_make_request` (lines 160-252).  `fuel` is the
number of remaining iterations of `for attempt in range(max_retries+1)`
and is `max_retries + 1 - attempt` throughout.  The local
`retry_count` is added to the metrics only when the loop exhausts all
attempts (line 247); a success or a no-retry failure returns or raises
without flushing it, exactly as in the source. -/
def make_request_loop (responses : Nat → Attempt) (max_retries : Nat) :
    Nat → Nat → Nat → Option NotionAPIErrorS → Metrics → List Nat → ReqOutcome
  | 0, _attempt, retry_count, last_error, m, sleeps =>
    { result := .error (.api (last_error.getD ⟨.maxRetriesUnknown, none, none⟩)),
      metrics := { m with requests_failed := m.requests_failed + 1,
                          retry_count := m.retry_count + retry_count },
      backoffSleeps := sleeps }
  | fuel + 1, attempt, retry_count, last_error, m, sleeps =>
    match responses attempt with
    | .httpResp status body text retryAfterHeader elapsed =>
      if status = 200 then
        { result := match body with
            | some j => .ok j
            | none => .error .jsonDecode,
          metrics := record_success m elapsed,
          backoffSleeps := sleeps }
      else
        let error_data := errorDataOf body text
        match determine_retry_strategy status (errorCodeOf error_data) with
        | .NO_RETRY =>
          { result := .error (.api ⟨.apiError (errorMessageOf error_data), some status, some error_data⟩),
            metrics := { m with requests_failed := m.requests_failed + 1 },
            backoffSleeps := sleeps }
        | .RATE_LIMIT_BACKOFF =>
          if attempt < max_retries then
            make_request_loop responses max_retries fuel (attempt + 1) (retry_count + 1) last_error m
              (sleeps ++ [retryAfterHeader.getD (2 ^ attempt)])
          else
            make_request_loop responses max_retries fuel (attempt + 1) retry_count
              (some ⟨.apiErrorAfterRetries max_retries (errorMessageOf error_data), some status, some error_data⟩)
              m sleeps
        | .EXPONENTIAL_BACKOFF =>
          if attempt < max_retries then
            make_request_loop responses max_retries fuel (attempt + 1) (retry_count + 1) last_error m
              (sleeps ++ [min (2 ^ attempt) 60])
          else
            make_request_loop responses max_retries fuel (attempt + 1) retry_count
              (some ⟨.apiErrorAfterRetries max_retries (errorMessageOf error_data), some status, some error_data⟩)
              m sleeps
    | .timeout =>
      if attempt < max_retries then
        make_request_loop responses max_retries fuel (attempt + 1) (retry_count + 1) last_error m
          (sleeps ++ [min (2 ^ attempt) 30])
      else
        make_request_loop responses max_retries fuel (attempt + 1) retry_count
          (some ⟨.timeoutAfterRetries max_retries, none, none⟩) m sleeps
    | .netErr exnText =>
      if attempt < max_retries then
        make_request_loop responses max_retries fuel (attempt + 1) (retry_count + 1) last_error m
          (sleeps ++ [min (2 ^ attempt) 30])
      else
        make_request_loop responses max_retries fuel (attempt + 1) retry_count
          (some ⟨.networkAfterRetries max_retries exnText, none, none⟩) m sleeps

/-- Shared mutable state of a `NotionClient`: the pacing timestamp and
the metrics counters. -/
structure ClientState where
  last_request_time : ℚ
  metrics : Metrics

/-- Minimum inter-request gap enforced by `_rate_limit_delay`. -/
def min_delay_between_requests : ℚ := 1 / 10

/-- Translation of `NotionClient._rate_limit_delay`: sleep the
remainder of the minimum gap if it has not elapsed, then record the
current time (sleeps are modelled as exact). -/
def rate_limit_delay (st : ClientState) (now : ℚ) : Option ℚ × ℚ :=
  let elapsed := now - st.last_request_time
  if elapsed < min_delay_between_requests then
    (some (min_delay_between_requests - elapsed), now + (min_delay_between_requests - elapsed))
  else (none, now)

/-- Result of one logical call through `_make_request`, with the
updated client state and all sleeps performed. -/
structure CallOutcome where
  result : Except Exn J
  state : ClientState
  pacingSleep : Option ℚ
  backoffSleeps : List Nat

/-- Translation of `NotionClient._make_request`: pace, count the
logical request, then run the retry loop over the backend's response
sequence (`responses i` is what attempt `i` observes). -/
def make_request (responses : Nat → Attempt) (max_retries : Nat) (st : ClientState) (now : ℚ) :
    CallOutcome :=
  let pac := rate_limit_delay st now
  let m0 := { st.metrics with requests_total := st.metrics.requests_total + 1 }
  let out := make_request_loop responses max_retries (max_retries + 1) 0 0 none m0 []
  { result := out.result,
    state := { last_request_time := pac.2, metrics := out.metrics },
    pacingSleep := pac.1,
    backoffSleeps := out.backoffSleeps }

/-- Outcome of the direct health probe issued by `health_check`. -/
inductive ProbeOutcome where
  | httpResp (status : Nat) (elapsed : ℚ)
  | exn (text : PyStr)

/-- Semantic content of the `error` field of a health report. -/
inductive HealthErrorInfo where
  | apiStatus (status : Nat)
  | exnText (text : PyStr)

/-- Dictionary returned by `NotionClient.health_check`. -/
structure HealthReport where
  status : PyStr
  response_time : Option ℚ
  errorInfo : Option HealthErrorInfo
  database_accessible : Bool
  metrics : Metrics

/-- Body of the `try` block of `NotionClient.health_check`: a direct
request without the pacing gate; a transport exception is raised out of
the body (and caught by the wrapper below). -/
def health_check_body (probe : ProbeOutcome) (st : ClientState) : Except PyStr HealthReport :=
  match probe with
  | .httpResp status elapsed =>
    if status = 200 then
      .ok { status := "healthy".toList, response_time := some elapsed, errorInfo := none,
            database_accessible := true, metrics := st.metrics }
    else
      .ok { status := "unhealthy".toList, response_time := none,
            errorInfo := some (.apiStatus status), database_accessible := false,
            metrics := st.metrics }
  | .exn text => .error text

/-- Translation of `NotionClient.health_check`: the body runs inside a
`try`, and any exception is turned into an unhealthy report carrying
the exception text; the client state is never touched and no pacing or
backoff sleep is performed. -/
def health_check (probe : ProbeOutcome) (st : ClientState) : HealthReport × ClientState × List ℚ :=
  match health_check_body probe st with
  | .ok r => (r, st, [])
  | .error text =>
    ({ status := "unhealthy".toList, response_time := none,
       errorInfo := some (.exnText text),
       database_accessible := false, metrics := st.metrics }, st, [])

/-- Python exceptions that occur while parsing a result row. -/
inductive PyExc where
  | keyError (k : PyStr)
  | typeError
  | attrError
  | validationError
deriving DecidableEq

/-- Python `d.get(k, default)`: the value if present, the default if
the key is missing, an `AttributeError` if `d` is not a dictionary. -/
def jGetD (d : J) (k : PyStr) (default : J) : Except PyExc J :=
  match d with
  | .jobj kvs => .ok ((kvs.lookup k).getD default)
  | _ => .error .attrError

/-- Python `d[k]`: the value if present, a `KeyError` if the key is
missing, a `TypeError` if `d` is not a dictionary. -/
def jIndex (d : J) (k : PyStr) : Except PyExc J :=
  match d with
  | .jobj kvs =>
    match kvs.lookup k with
    | some v => .ok v
    | none => .error (.keyError k)
  | _ => .error .typeError

/-- Python truthiness of a JSON value. -/
def truthy : J → Bool
  | .jnull => false
  | .jbool b => b
  | .jnum n => n ≠ 0
  | .jstr s => s ≠ []
  | .jarr xs => !xs.isEmpty
  | .jobj kvs => !kvs.isEmpty

/-- Coercion to `str` demanded by the pydantic model fields; any other
value fails row validation. -/
def asStr (v : J) : Except PyExc PyStr :=
  match v with
  | .jstr s => .ok s
  | _ => .error .validationError

/-- Evaluation of `"".join(text.get("plain_text", "") for text in v)`:
iterating a non-list raises, and a non-string `plain_text` makes the
join raise. -/
def joinPlainTexts (v : J) : Except PyExc PyStr :=
  match v with
  | .jarr xs => do
    let parts ← xs.mapM (fun t => do
      let p ← jGetD t "plain_text".toList (J.jstr [])
      asStr p)
    pure parts.flatten
  | _ => .error .typeError

/-- Lightweight summary of `data_types.DocumentSummary`. -/
structure DocumentSummary where
  id : PyStr
  title : PyStr
  category : PyStr
  tags : List PyStr
  created : PyStr
  notion_url : PyStr
deriving DecidableEq

/-- Translation of `NotionClient._parse_page_summary`: title, category
and tags fall back to "Untitled" / "General" / empty when absent, a
present-but-malformed field raises (for example a missing `name` under
a truthy `select`).  `nowIso` stands for `datetime.now().isoformat()`,
the default used when `created_time` is missing. -/
def parse_page_summary (page_data : J) (nowIso : PyStr) : Except PyExc DocumentSummary := do
  let properties ← jGetD page_data "properties".toList (J.jobj [])
  let tprop ← jGetD properties "Title".toList (J.jobj [])
  let titleVal ← jGetD tprop "title".toList J.jnull
  let title ←
    if truthy titleVal then do
      let t1 ← jIndex properties "Title".toList
      let t2 ← jIndex t1 "title".toList
      let joined ← joinPlainTexts t2
      pure (if joined = [] then "Untitled".toList else joined)
    else pure "Untitled".toList
  let cprop ← jGetD properties "Category".toList (J.jobj [])
  let catVal ← jGetD cprop "select".toList J.jnull
  let category ←
    if truthy catVal then do
      let c1 ← jIndex properties "Category".toList
      let c2 ← jIndex c1 "select".toList
      let c3 ← jIndex c2 "name".toList
      asStr c3
    else pure "General".toList
  let gprop ← jGetD properties "Tags".toList (J.jobj [])
  let tagsVal ← jGetD gprop "multi_select".toList J.jnull
  let tags ←
    if truthy tagsVal then do
      let g1 ← jIndex properties "Tags".toList
      let g2 ← jIndex g1 "multi_select".toList
      match g2 with
      | .jarr xs => xs.mapM (fun t => do asStr (← jIndex t "name".toList))
      | _ => Except.error PyExc.typeError
    else pure []
  let createdVal ← jGetD page_data "created_time".toList (J.jstr nowIso)
  let created ← asStr createdVal
  let idVal ← jGetD page_data "id".toList (J.jstr [])
  let page_id ← asStr idVal
  pure { id := page_id, title := title, category := category, tags := tags,
         created := created, notion_url := format_notion_url page_id }

/-- Row loop of `NotionClient.search_documents` (lines 449-456): each
row is parsed inside a `try`; a row whose parse raises is skipped. -/
def searchCollect (rows : List J) (nowIso : PyStr) : List DocumentSummary :=
  match rows with
  | [] => []
  | r :: rest =>
    match parse_page_summary r nowIso with
    | .ok d => d :: searchCollect rest nowIso
    | .error _ => searchCollect rest nowIso

/-- Relevant part of `data_types.SearchDocumentsResponse`. -/
structure SearchResponseS where
  results : List DocumentSummary
  total_count : Nat
deriving DecidableEq

/-- Response-processing part of `NotionClient.search_documents` (lines
449-466): iterate `result.get("results", [])`, skip rows whose parse
raises, and report `total_count = len(documents)` (a non-list results
value is modelled as a type error). -/
def search_documents_process (result : J) (nowIso : PyStr) : Except PyExc SearchResponseS := do
  let rowsVal ← jGetD result "results".toList (J.jarr [])
  let rows ←
    match rowsVal with
    | .jarr xs => pure xs
    | _ => Except.error PyExc.typeError
  let documents := searchCollect rows nowIso
  pure { results := documents, total_count := documents.length }

/-- Content blocks consumed by `_extract_block_text`, with their
plain-text runs (`rich_text` entries); `other` covers every block type
the function does not handle. -/
inductive Block where
  | paragraph (runs : List PyStr)
  | heading_1 (runs : List PyStr)
  | heading_2 (runs : List PyStr)
  | heading_3 (runs : List PyStr)
  | bulleted_list_item (runs : List PyStr)
  | numbered_list_item (runs : List PyStr)
  | code (language : PyStr) (runs : List PyStr)
  | other
deriving DecidableEq

/-- Raw `text_content` built by `_extract_block_text` before the final
strip: concatenated runs, with the bullet / fixed "1. " / code-fence
decorations, and the empty string for unhandled block types. -/
def blockRawText (b : Block) : PyStr :=
  match b with
  | .paragraph rs => rs.flatten
  | .heading_1 rs => rs.flatten
  | .heading_2 rs => rs.flatten
  | .heading_3 rs => rs.flatten
  | .bulleted_list_item rs => "• ".toList ++ rs.flatten
  | .numbered_list_item rs => "1. ".toList ++ rs.flatten
  | .code language rs =>
    "```".toList ++ language ++ ['\n'] ++ rs.flatten ++ ['\n'] ++ "```".toList
  | .other => []

/-- Translation of `NotionClient._extract_block_text`: the stripped
text content, or `None` when it strips to nothing. -/
def extract_block_text (b : Block) : Option PyStr :=
  let t := pyStrip (blockRawText b)
  if t = [] then none else some t

/-- Content reconstruction of `NotionClient._parse_full_document`
(lines 570-577): keep the blocks with text, join with blank lines, fall
back to the placeholder. -/
def parse_full_document_content (blocks : List Block) : PyStr :=
  let content_parts := blocks.filterMap extract_block_text
  if content_parts = [] then "No content available".toList
  else List.intercalate "\n\n".toList content_parts

/-- Rendering of one block in the words of the specification: plain
text runs for paragraphs and headings, a "• " or literal "1. " marker
for list items, a language-annotated triple-backtick fence for code,
nothing for other block types. -/
def specBlockRendering (b : Block) : PyStr :=
  match b with
  | .paragraph rs => rs.flatten
  | .heading_1 rs => rs.flatten
  | .heading_2 rs => rs.flatten
  | .heading_3 rs => rs.flatten
  | .bulleted_list_item rs => "• ".toList ++ rs.flatten
  | .numbered_list_item rs => "1. ".toList ++ rs.flatten
  | .code language rs =>
    "```".toList ++ language ++ ['\n'] ++ rs.flatten ++ ['\n'] ++ "```".toList
  | .other => []

/-- Reconstruction in the words of the specification claim: join the
rendered texts of the blocks with blank lines, omitting blocks whose
rendering is empty or whitespace-only, with the placeholder when
nothing remains. -/
def specReconstruct (blocks : List Block) : PyStr :=
  let parts := (blocks.map specBlockRendering).filter (fun t => pyStrip t ≠ [])
  if parts = [] then "No content available".toList
  else List.intercalate "\n\n".toList parts

/-- Reconstruction in the words of the amended claim: as
`specReconstruct`, but each kept rendering is trimmed of leading and
trailing whitespace. -/
def specReconstructTrimmed (blocks : List Block) : PyStr :=
  let parts := ((blocks.map specBlockRendering).map pyStrip).filter (fun t => t ≠ [])
  if parts = [] then "No content available".toList
  else List.intercalate "\n\n".toList parts

/-- Body of the `try` block shared by the three tool handlers in
`server.py`: a successful body yields its text, an exception is caught
and prefixed into an error text. -/
def tool_try_block (body : Except PyStr PyStr) (errorText : PyStr) : PyStr :=
  match body with
  | .ok t => t
  | .error e => errorText ++ e

/-- Control flow of one tool handler in `server.py`: the lazy
`initialize_server()` call runs before the `try` block, so a failure
there escapes the handler; once the client exists, the `try` block
turns every body exception into an error text. -/
def tool_boundary (client_ready : Bool) (initOutcome : Except PyStr Unit)
    (body : Except PyStr PyStr) (errorText : PyStr) : Except PyStr PyStr :=
  if client_ready then .ok (tool_try_block body errorText)
  else
    match initOutcome with
    | .error e => .error e
    | .ok _ => .ok (tool_try_block body errorText)

/-- Translation of the `add_document` tool handler of `server.py`. -/
def add_document_tool (client_ready : Bool) (initOutcome : Except PyStr Unit)
    (body : Except PyStr PyStr) : Except PyStr PyStr :=
  tool_boundary client_ready initOutcome body "❌ Error adding document: ".toList

/-- Translation of the `search_documents` tool handler of `server.py`. -/
def search_documents_tool (client_ready : Bool) (initOutcome : Except PyStr Unit)
    (body : Except PyStr PyStr) : Except PyStr PyStr :=
  tool_boundary client_ready initOutcome body "❌ Error searching documents: ".toList

/-- Translation of the `get_document` tool handler of `server.py`. -/
def get_document_tool (client_ready : Bool) (initOutcome : Except PyStr Unit)
    (body : Except PyStr PyStr) : Except PyStr PyStr :=
  tool_boundary client_ready initOutcome body "❌ Error retrieving document: ".toList

theorem char_toNat_ofNat {n : Nat} (h : n < 55296) : (Char.ofNat n).toNat = n := by
  unfold Char.ofNat
  rw [dif_pos (Or.inl h)]
  rfl

theorem pyLower_pyLower (c : Char) : pyLower (pyLower c) = pyLower c := by
  unfold pyLower
  by_cases h : c.toNat ≥ 65 ∧ c.toNat ≤ 90
  · rw [if_pos h]
    have ht : (Char.ofNat (c.toNat + 32)).toNat = c.toNat + 32 :=
      char_toNat_ofNat (by omega)
    rw [if_neg (by omega)]
  · simp only [if_neg h]

theorem map_pyLower_idem (l : PyStr) : (l.map pyLower).map pyLower = l.map pyLower := by
  induction l with
  | nil => rfl
  | cons c cs ih => simp [pyLower_pyLower, ih]

theorem normalizeTag_lower (t : PyStr) : (normalizeTag t).map pyLower = normalizeTag t := by
  unfold normalizeTag
  rw [List.map_take, map_pyLower_idem]

theorem normalizeTag_len (t : PyStr) : (normalizeTag t).length ≤ 50 := by
  unfold normalizeTag
  exact List.length_take_le 50 _

theorem sanitizeAux_mem (ts : List PyStr) : ∀ acc x, x ∈ sanitizeAux acc ts →
    x ∈ acc ∨ (x ≠ [] ∧ x.length ≤ 50 ∧ x.map pyLower = x) := by
  induction ts with
  | nil => intro acc x h; exact Or.inl h
  | cons t rest ih =>
    intro acc x h
    by_cases h1 : pyStrip t ≠ []
    · by_cases h2 : normalizeTag t ≠ [] ∧ normalizeTag t ∉ acc
      · have h' : x ∈ sanitizeAux (acc ++ [normalizeTag t]) rest := by
          simpa [sanitizeAux, if_pos h1, if_pos h2] using h
        rcases ih _ x h' with hin | hp
        · rcases List.mem_append.mp hin with ha | hb
          · exact Or.inl ha
          · have hx : x = normalizeTag t := by simpa using hb
            subst hx
            exact Or.inr ⟨h2.1, normalizeTag_len t, normalizeTag_lower t⟩
        · exact Or.inr hp
      · have h' : x ∈ sanitizeAux acc rest := by
          simpa [sanitizeAux, if_pos h1, if_neg h2] using h
        exact ih _ x h'
    · have h' : x ∈ sanitizeAux acc rest := by
        simpa [sanitizeAux, if_neg h1] using h
      exact ih _ x h'

theorem sanitizeAux_nodup (ts : List PyStr) : ∀ acc, acc.Nodup → (sanitizeAux acc ts).Nodup := by
  induction ts with
  | nil => intro acc h; simpa [sanitizeAux] using h
  | cons t rest ih =>
    intro acc hacc
    by_cases h1 : pyStrip t ≠ []
    · by_cases h2 : normalizeTag t ≠ [] ∧ normalizeTag t ∉ acc
      · have hnd : (acc ++ [normalizeTag t]).Nodup := by
          rw [List.nodup_append]
          refine ⟨hacc, by simp, ?_⟩
          intro a ha ha'
          have : a = normalizeTag t := by simpa using ha'
          subst this
          exact h2.2 ha
        simpa [sanitizeAux, if_pos h1, if_pos h2] using ih _ hnd
      · simpa [sanitizeAux, if_pos h1, if_neg h2] using ih _ hacc
    · simpa [sanitizeAux, if_neg h1] using ih _ hacc

theorem sanitizeAux_fix : ∀ (L acc : List PyStr),
    (∀ x ∈ L, x ≠ [] ∧ x.length ≤ 50 ∧ x.map pyLower = x ∧ pyStrip x = x) →
    (acc ++ L).Nodup → sanitizeAux acc L = acc ++ L := by
  intro L
  induction L with
  | nil => intro acc _ _; simp [sanitizeAux]
  | cons t rest ih =>
    intro acc hP hnd
    obtain ⟨ht_ne, ht_len, ht_low, ht_strip⟩ := hP t (by simp)
    have hnorm : normalizeTag t = t := by
      unfold normalizeTag
      rw [ht_strip, ht_low, List.take_of_length_le ht_len]
    have hc1 : pyStrip t ≠ [] := by rw [ht_strip]; exact ht_ne
    have hmem : t ∉ acc := by
      intro hin
      rcases List.nodup_append.mp hnd with ⟨-, -, hdisj⟩
      exact hdisj hin (by simp)
    have hc2 : normalizeTag t ≠ [] ∧ normalizeTag t ∉ acc := by
      rw [hnorm]; exact ⟨ht_ne, hmem⟩
    have step : sanitizeAux acc (t :: rest) = sanitizeAux (acc ++ [t]) rest := by
      rw [sanitizeAux, if_pos hc1, if_pos hc2, hnorm]
    rw [step, ih (acc ++ [t]) (fun x hx => hP x (by simp [hx]))
      (by simpa [List.append_assoc] using hnd)]
    simp

/-- C5: amended. The output of tag normalization always has at most 10
tags, each non-empty, at most 50 characters, lower-case, with
duplicates removed; normalization is idempotent whenever every output
tag is its own trim, which can only fail when the 50-character
truncation cuts a tag right after interior whitespace (unconditional
idempotency and trimmedness are refuted by the counterexample). -/
theorem claim_C5_sanitize_tags_amended (tags : List PyStr) :
    (sanitize_tags tags).length ≤ 10 ∧
    (∀ x ∈ sanitize_tags tags, x ≠ [] ∧ x.length ≤ 50 ∧ x.map pyLower = x) ∧
    (sanitize_tags tags).Nodup ∧
    ((∀ x ∈ sanitize_tags tags, pyStrip x = x) →
      sanitize_tags (sanitize_tags tags) = sanitize_tags tags) := by
  have hmem : ∀ x ∈ sanitize_tags tags, x ≠ [] ∧ x.length ≤ 50 ∧ x.map pyLower = x := by
    intro x hx
    have hx' : x ∈ sanitizeAux [] tags := List.mem_of_mem_take hx
    rcases sanitizeAux_mem tags [] x hx' with h | h
    · simp at h
    · exact h
  have hnd : (sanitize_tags tags).Nodup :=
    (sanitizeAux_nodup tags [] (by simp)).sublist (List.take_sublist 10 _)
  refine ⟨List.length_take_le 10 _, hmem, hnd, ?_⟩
  intro hst
  have hfix : sanitizeAux [] (sanitize_tags tags) = sanitize_tags tags :=
    sanitizeAux_fix (sanitize_tags tags) []
      (fun x hx => ⟨(hmem x hx).1, (hmem x hx).2.1, (hmem x hx).2.2, hst x hx⟩)
      (by simpa using hnd)
  show (sanitizeAux [] (sanitize_tags tags)).take 10 = sanitize_tags tags
  rw [hfix]
  exact List.take_of_length_le (List.length_take_le 10 _)

/-- C5: counterexample. A 51-character tag whose 50th character is a
space is truncated to a tag with a trailing space, so the output is not
trimmed and a second normalization pass changes it: `sanitize_tags` is
not idempotent as claimed. -/
theorem claim_C5_counterexample :
    sanitize_tags [List.replicate 49 'a' ++ " b".toList] =
      [List.replicate 49 'a' ++ [' ']] ∧
    sanitize_tags (sanitize_tags [List.replicate 49 'a' ++ " b".toList]) ≠
      sanitize_tags [List.replicate 49 'a' ++ " b".toList] := by
  constructor
  · decide
  · decide

/-- C5: witness. The amended theorem applied to a concrete tag list
whose normalised tags are their own trims. -/
theorem claim_C5_witness :
    (sanitize_tags ["  Hello".toList, "WORLD".toList, "hello".toList]).length ≤ 10 ∧
    sanitize_tags (sanitize_tags ["  Hello".toList, "WORLD".toList, "hello".toList]) =
      sanitize_tags ["  Hello".toList, "WORLD".toList, "hello".toList] :=
  ⟨(claim_C5_sanitize_tags_amended _).1,
   (claim_C5_sanitize_tags_amended _).2.2.2 (by decide)⟩

def c1Payload : J := J.jobj [("object".toList, J.jstr "page".toList)]

/-- Backend response sequence of the C1 scenario: two 429 responses
followed by a 200 response carrying the payload. -/
def c1Responses : Nat → Attempt := fun i =>
  if i = 0 ∨ i = 1 then Attempt.httpResp 429 (some (J.jobj [])) [] none 0
  else Attempt.httpResp 200 (some c1Payload) [] none 1

/-- C1: code bug. For the backend sequence [429, 429, 200] and every
retry budget of at least 2 (written `k + 2`), the engine does return
the 200 payload, but the metrics retry counter is left unchanged
rather than increased by 2: `_make_request` adds the local
`retry_count` to the metrics only on the retries-exhausted path (line
247), which a successful call never reaches. -/
theorem claim_C1_retry_counter_code_bug (st : ClientState) (now : ℚ) (k : Nat) :
    (make_request c1Responses (k + 2) st now).result = Except.ok c1Payload ∧
    (make_request c1Responses (k + 2) st now).state.metrics.retry_count =
      st.metrics.retry_count ∧
    (make_request c1Responses (k + 2) st now).state.metrics.requests_success =
      st.metrics.requests_success + 1 := by
  have e0 : c1Responses 0 = Attempt.httpResp 429 (some (J.jobj [])) [] none 0 := rfl
  have e1 : c1Responses 1 = Attempt.httpResp 429 (some (J.jobj [])) [] none 0 := rfl
  have e2 : c1Responses 2 = Attempt.httpResp 200 (some c1Payload) [] none 1 := rfl
  simp only [make_request]
  rw [make_request_loop, e0]
  norm_num [determine_retry_strategy, errorCodeOf, errorDataOf]
  rw [make_request_loop, e1]
  norm_num [determine_retry_strategy, errorCodeOf, errorDataOf]
  rw [make_request_loop, e2]
  norm_num [record_success, update_response_time_metric]
  constructor <;> (try split) <;> rfl

/-- Case-insensitive timeout-or-network test on the error-type hint,
in the words of the specification table. -/
def hintIndicatesTimeoutOrNetwork (hint : PyStr) : Bool :=
  containsSub "timeout".toList (hint.map pyLower) ||
    containsSub "network".toList (hint.map pyLower)

/-- Classification table written from the specification's words: the
rows are tried in the listed order, each status and hint landing in
exactly one row. -/
def specRetryClassification (status_code : Nat) (hint : PyStr) : RetryStrategy :=
  if status_code = 429 then .RATE_LIMIT_BACKOFF
  else if 500 ≤ status_code then .EXPONENTIAL_BACKOFF
  else if status_code = 401 ∨ status_code = 403 ∨ status_code = 404 then .NO_RETRY
  else if hintIndicatesTimeoutOrNetwork hint then .EXPONENTIAL_BACKOFF
  else .NO_RETRY

/-- C2: confirmed. The retry-strategy classifier agrees with the
specification table on every status code and hint, and a call whose
first response is 404 fails immediately: the error carries status 404,
the retry counter and success counter are unchanged, the failure
counter increases by one, and no backoff sleep is performed. -/
theorem claim_C2_retry_classification :
    (∀ (status_code : Nat) (hint : PyStr),
      determine_retry_strategy status_code hint = specRetryClassification status_code hint) ∧
    (∀ (responses : Nat → Attempt) (max_retries : Nat) (st : ClientState) (now : ℚ)
      (body : Option J) (text : PyStr) (ra : Option Nat) (el : ℚ),
      responses 0 = Attempt.httpResp 404 body text ra el →
        (make_request responses max_retries st now).result =
          Except.error (Exn.api ⟨ErrMsg.apiError (errorMessageOf (errorDataOf body text)),
            some 404, some (errorDataOf body text)⟩) ∧
        (make_request responses max_retries st now).state.metrics.retry_count =
          st.metrics.retry_count ∧
        (make_request responses max_retries st now).backoffSleeps = [] ∧
        (make_request responses max_retries st now).state.metrics.requests_failed =
          st.metrics.requests_failed + 1 ∧
        (make_request responses max_retries st now).state.metrics.requests_success =
          st.metrics.requests_success) := by
  constructor
  · intro status_code hint
    simp [determine_retry_strategy, specRetryClassification, hintIndicatesTimeoutOrNetwork,
      List.mem_cons]
  · intro responses max_retries st now body text ra el h0
    have hstrat : determine_retry_strategy 404 (errorCodeOf (errorDataOf body text)) =
        RetryStrategy.NO_RETRY := by
      simp [determine_retry_strategy]
    have key : make_request responses max_retries st now =
        { result := Except.error (Exn.api ⟨ErrMsg.apiError (errorMessageOf (errorDataOf body text)),
            some 404, some (errorDataOf body text)⟩),
          state :=
            { last_request_time := (rate_limit_delay st now).2,
              metrics :=
                { st.metrics with
                  requests_total := st.metrics.requests_total + 1,
                  requests_failed := st.metrics.requests_failed + 1 } },
          pacingSleep := (rate_limit_delay st now).1,
          backoffSleeps := [] } := by
      simp only [make_request]
      rw [make_request_loop, h0]
      simp [hstrat]
    rw [key]
    exact ⟨rfl, rfl, rfl, rfl, rfl⟩

/-- Backend response used to witness the C2 404 behaviour. -/
def c2Responses : Nat → Attempt := fun _ =>
  Attempt.httpResp 404 (some (J.jobj [("message".toList, J.jstr "Not found".toList)])) [] none 0

/-- C2: witness. The classifier equality at 404 and the immediate
failure of a call whose responses are all 404, at a concrete state. -/
theorem claim_C2_witness :
    determine_retry_strategy 404 "unknown".toList =
      specRetryClassification 404 "unknown".toList ∧
    (make_request c2Responses 3 ⟨0, Metrics.init⟩ 0).backoffSleeps = [] ∧
    (make_request c2Responses 3 ⟨0, Metrics.init⟩ 0).state.metrics.retry_count =
      (⟨0, Metrics.init⟩ : ClientState).metrics.retry_count :=
  ⟨claim_C2_retry_classification.1 404 "unknown".toList,
   (claim_C2_retry_classification.2 c2Responses 3 ⟨0, Metrics.init⟩ 0
     (some (J.jobj [("message".toList, J.jstr "Not found".toList)])) [] none 0 rfl).2.2.1,
   (claim_C2_retry_classification.2 c2Responses 3 ⟨0, Metrics.init⟩ 0
     (some (J.jobj [("message".toList, J.jstr "Not found".toList)])) [] none 0 rfl).2.1⟩

/-- C9: confirmed. Starting from a fresh success count, two terminal
successes with observed durations 1 second and then 3 seconds leave a
recorded running average of exactly 2 seconds; the average is folded in
incrementally by `_update_response_time_metric` at each success. -/
theorem claim_C9_running_average (m : Metrics) (h : m.requests_success = 0) :
    (record_success (record_success m 1) 3).average_response_time = 2 := by
  simp [record_success, update_response_time_metric, h]
  norm_num

/-- C9: witness. The running-average theorem applied to the initial
metrics dictionary. -/
theorem claim_C9_witness :
    (record_success (record_success Metrics.init 1) 3).average_response_time = 2 :=
  claim_C9_running_average Metrics.init rfl

/-- C10: confirmed. The health check is total over probe outcomes: it
never touches the client state (so the pacing timestamp and the request
metrics counters are unchanged), performs no sleep, always embeds the
current metrics snapshot, and reports "healthy" exactly when the probe
returned HTTP 200 — any other status, and any raised transport
exception, yields an "unhealthy" report instead of an exception. -/
theorem claim_C10_health_check_total (probe : ProbeOutcome) (st : ClientState) :
    (health_check probe st).2.1 = st ∧
    (health_check probe st).2.2 = [] ∧
    ((health_check probe st).1).metrics = st.metrics ∧
    (((health_check probe st).1).status = "healthy".toList ↔
      ∃ elapsed, probe = ProbeOutcome.httpResp 200 elapsed) ∧
    (((health_check probe st).1).status = "healthy".toList ∨
      ((health_check probe st).1).status = "unhealthy".toList) := by
  have hne : ("unhealthy".toList : PyStr) ≠ "healthy".toList := by decide
  cases probe with
  | httpResp status elapsed =>
    by_cases h : status = 200
    · subst h
      exact ⟨rfl, rfl, rfl, ⟨fun _ => ⟨elapsed, rfl⟩, fun _ => rfl⟩, Or.inl rfl⟩
    · have e : health_check (ProbeOutcome.httpResp status elapsed) st =
        ({ status := "unhealthy".toList, response_time := none,
           errorInfo := some (HealthErrorInfo.apiStatus status),
           database_accessible := false, metrics := st.metrics }, st, []) := by
        simp [health_check, health_check_body, h]
      rw [e]
      refine ⟨rfl, rfl, rfl, ⟨fun hc => absurd hc hne, ?_⟩, Or.inr rfl⟩
      rintro ⟨el, hel⟩
      cases hel
      exact absurd rfl h
  | exn text =>
    refine ⟨rfl, rfl, rfl, ⟨fun hc => absurd hc hne, ?_⟩, Or.inr rfl⟩
    rintro ⟨el, hel⟩
    cases hel

/-- C4: code bug. The 32-character string "0x" followed by 30 zeros is
accepted by `validate_notion_page_id` although it is not 32 hexadecimal
digits: the implementation delegates the digit check to `int(s, 16)`,
which also accepts a `0x` prefix (as well as a sign, surrounding
whitespace and underscores).  The wrong-length direction of the claim
does hold: any input with a hyphen-stripped length other than 32 is
rejected. -/
theorem claim_C4_page_id_validation_code_bug :
    validate_notion_page_id ('0' :: 'x' :: List.replicate 30 '0') = true ∧
    (('0' :: 'x' :: List.replicate 30 '0').filter (fun c => c ≠ '-')).length = 32 ∧
    ¬ (∀ c ∈ ('0' :: 'x' :: List.replicate 30 '0').filter (fun c => c ≠ '-'), isHexDigitPy c) ∧
    (∀ page_id : PyStr, (page_id.filter (fun c => c ≠ '-')).length ≠ 32 →
      validate_notion_page_id page_id = false) := by
  refine ⟨by decide, by decide, by decide, ?_⟩
  intro page_id h
  unfold validate_notion_page_id
  by_cases he : page_id = []
  · rw [if_pos he]
  · rw [if_neg he, if_pos h]

/-- C6: counterexample. For an empty title and a content whose first
line is empty but whose second line is not, the derived title is the
placeholder "Untitled Document", not the first non-empty line of the
content as the claim states. -/
theorem claim_C6_counterexample :
    add_document_title [] ("\nSecond line".toList) = "Untitled Document".toList ∧
    "Untitled Document".toList ≠ "Second line".toList := by
  exact ⟨by decide, by decide⟩

/-- C6: amended. For an empty or whitespace-only title, the document
title is derived from the first line of the content: if that line strips
to something non-empty it is used (truncated to 100 characters with an
ellipsis when cut), otherwise — even when a later line is non-empty —
the placeholder "Untitled Document" is used; the derived title is never
empty, and the spec's example derives "First line". -/
theorem claim_C6_title_derivation_amended (title content : PyStr) (h : pyStrip title = []) :
    add_document_title title content = extract_title_from_content content ∧
    extract_title_from_content content ≠ [] ∧
    (pyStrip (firstLine content) ≠ [] →
      extract_title_from_content content =
        (if (pyStrip (firstLine content)).length > 100
         then (pyStrip (firstLine content)).take 97 ++ "...".toList
         else pyStrip (firstLine content))) ∧
    (pyStrip (firstLine content) = [] →
      extract_title_from_content content = "Untitled Document".toList) := by
  refine ⟨by unfold add_document_title; rw [if_pos h], ?_, ?_, ?_⟩
  all_goals by_cases hc : content = []
  · subst hc; decide
  · have he : extract_title_from_content content =
        (if pyStrip (firstLine content) ≠ [] then
          (if (pyStrip (firstLine content)).length > 100
           then (pyStrip (firstLine content)).take (100 - 3) ++ "...".toList
           else pyStrip (firstLine content))
         else "Untitled Document".toList) := by
      unfold extract_title_from_content
      rw [if_neg hc]
    by_cases hf : pyStrip (firstLine content) = []
    · rw [he, if_neg (by simp [hf])]
      decide
    · rw [he, if_pos hf]
      by_cases hl : (pyStrip (firstLine content)).length > 100
      · rw [if_pos hl]
        simp
      · rw [if_neg hl]
        exact hf
  · subst hc; intro hfl; exact absurd rfl hfl
  · intro hfl
    have he : extract_title_from_content content =
        (if pyStrip (firstLine content) ≠ [] then
          (if (pyStrip (firstLine content)).length > 100
           then (pyStrip (firstLine content)).take (100 - 3) ++ "...".toList
           else pyStrip (firstLine content))
         else "Untitled Document".toList) := by
      unfold extract_title_from_content
      rw [if_neg hc]
    rw [he, if_pos hfl]
  · subst hc; intro _; rfl
  · intro hfl
    have he : extract_title_from_content content =
        (if pyStrip (firstLine content) ≠ [] then
          (if (pyStrip (firstLine content)).length > 100
           then (pyStrip (firstLine content)).take (100 - 3) ++ "...".toList
           else pyStrip (firstLine content))
         else "Untitled Document".toList) := by
      unfold extract_title_from_content
      rw [if_neg hc]
    rw [he, if_neg (by simp [hfl])]

/-- C6: witness. The amended theorem applied to the spec's example:
empty title with content "First line\nSecond line" derives the title
"First line". -/
theorem claim_C6_witness :
    add_document_title [] ("First line\nSecond line".toList) =
      extract_title_from_content ("First line\nSecond line".toList) ∧
    add_document_title [] ("First line\nSecond line".toList) = "First line".toList :=
  ⟨(claim_C6_title_derivation_amended [] ("First line\nSecond line".toList) (by decide)).1,
   by decide⟩

/-- C3: counterexample. When the client is not yet ready and the lazy
`initialize_server()` call fails, the exception escapes the tool
handler: `initialize_server` runs before the `try` block, so not every
input yields a text block. -/
theorem claim_C3_counterexample :
    add_document_tool false
      (Except.error "RuntimeError: Failed to connect to Notion API".toList)
      (Except.ok "document added".toList) =
      Except.error "RuntimeError: Failed to connect to Notion API".toList := rfl

/-- C3: amended. Provided the Notion client is already ready (as the
normal serving startup guarantees) or the lazy initialisation succeeds,
each of the three tool handlers returns a text block for every body
outcome, and a body exception is reported as the handler's prefixed
error text; only a failing lazy initialisation can let an exception
escape. -/
theorem claim_C3_tool_boundary_amended (client_ready : Bool)
    (initOutcome : Except PyStr Unit) (body : Except PyStr PyStr)
    (h : client_ready = true ∨ initOutcome = Except.ok ()) :
    add_document_tool client_ready initOutcome body =
      Except.ok (tool_try_block body "❌ Error adding document: ".toList) ∧
    search_documents_tool client_ready initOutcome body =
      Except.ok (tool_try_block body "❌ Error searching documents: ".toList) ∧
    get_document_tool client_ready initOutcome body =
      Except.ok (tool_try_block body "❌ Error retrieving document: ".toList) ∧
    (∀ e errText, body = Except.error e → tool_try_block body errText = errText ++ e) := by
  have key : ∀ errText, tool_boundary client_ready initOutcome body errText =
      Except.ok (tool_try_block body errText) := by
    intro errText
    rcases h with h | h
    · subst h; rfl
    · rw [tool_boundary.eq_def, h]
      cases client_ready <;> rfl
  refine ⟨key _, key _, key _, ?_⟩
  intro e errText hb
  rw [hb]
  rfl

/-- C3: witness. The amended theorem applied to a ready-after-init
state with a failing body: the handler returns the prefixed error
text instead of raising. -/
theorem claim_C3_witness :
    add_document_tool false (Except.ok ()) (Except.error "boom".toList) =
      Except.ok (tool_try_block (Except.error "boom".toList)
        "❌ Error adding document: ".toList) ∧
    tool_try_block (Except.error "boom".toList) "❌ Error adding document: ".toList =
      "❌ Error adding document: ".toList ++ "boom".toList :=
  ⟨(claim_C3_tool_boundary_amended false (Except.ok ()) (Except.error "boom".toList)
      (Or.inr rfl)).1,
   (claim_C3_tool_boundary_amended false (Except.ok ()) (Except.error "boom".toList)
      (Or.inr rfl)).2.2.2 "boom".toList "❌ Error adding document: ".toList rfl⟩

theorem blockRawText_eq_spec (b : Block) : blockRawText b = specBlockRendering b := by
  cases b <;> rfl

theorem filterMap_extract_eq (blocks : List Block) :
    blocks.filterMap extract_block_text =
      ((blocks.map specBlockRendering).map pyStrip).filter (fun t => t ≠ []) := by
  induction blocks with
  | nil => rfl
  | cons b rest ih =>
    by_cases h : pyStrip (specBlockRendering b) = []
    · simp [List.filterMap_cons, extract_block_text, blockRawText_eq_spec, h, ih]
    · simp [List.filterMap_cons, extract_block_text, blockRawText_eq_spec, h, ih]

/-- C7: counterexample. A paragraph whose text carries surrounding
whitespace is reconstructed in trimmed form ("Hello"), not as its
rendered text (" Hello ") as the claim's join-of-renderings states:
`_extract_block_text` strips each block's rendering before joining. -/
theorem claim_C7_counterexample :
    parse_full_document_content [Block.paragraph [" Hello ".toList]] = "Hello".toList ∧
    specReconstruct [Block.paragraph [" Hello ".toList]] = " Hello ".toList ∧
    parse_full_document_content [Block.paragraph [" Hello ".toList]] ≠
      specReconstruct [Block.paragraph [" Hello ".toList]] := by
  refine ⟨by decide, by decide, by decide⟩

/-- C7: amended. For every ordered list of content blocks, fetch
reconstructs the content by joining each block's rendered text,
trimmed of leading and trailing whitespace, with a blank line between
blocks in order (the renderings being plain-text runs, "• " bullets,
literal "1. " numbering, language-annotated code fences, and nothing
for other types), blocks whose rendering is empty or whitespace-only
contributing nothing and the placeholder appearing when no block
produces text; the spec's three-block example reconstructs exactly as
stated. -/
theorem claim_C7_content_reconstruction_amended :
    (∀ blocks : List Block,
      parse_full_document_content blocks = specReconstructTrimmed blocks) ∧
    parse_full_document_content
      [Block.paragraph ["Hello".toList], Block.bulleted_list_item ["World".toList],
       Block.code "js".toList ["x=1".toList]] =
      "Hello\n\n• World\n\n```js\nx=1\n```".toList := by
  constructor
  · intro blocks
    unfold parse_full_document_content specReconstructTrimmed
    rw [filterMap_extract_eq]
  · decide

theorem searchCollect_filterMap (rows : List J) (nowIso : PyStr) :
    searchCollect rows nowIso =
      rows.filterMap (fun r => (parse_page_summary r nowIso).toOption) := by
  induction rows with
  | nil => rfl
  | cons r rest ih =>
    cases hp : parse_page_summary r nowIso with
    | ok d => simp [searchCollect, hp, ih, Except.toOption]
    | error e => simp [searchCollect, hp, ih, Except.toOption]

/-- First result row of the C8 scenario: a well-formed page. -/
def c8Row1 : J :=
  J.jobj [("id".toList, J.jstr "page1".toList),
    ("created_time".toList, J.jstr "2024-01-01".toList),
    ("properties".toList, J.jobj [("Title".toList, J.jobj [("title".toList,
      J.jarr [J.jobj [("plain_text".toList, J.jstr "Doc one".toList)]])])])]

/-- Second result row of the C8 scenario: malformed, its truthy
`Category.select` is missing the required `name` field. -/
def c8Row2Malformed : J :=
  J.jobj [("id".toList, J.jstr "page2".toList),
    ("properties".toList, J.jobj [("Category".toList, J.jobj [("select".toList,
      J.jobj [("color".toList, J.jstr "red".toList)])])])]

/-- Third result row of the C8 scenario: a well-formed page. -/
def c8Row3 : J :=
  J.jobj [("id".toList, J.jstr "page3".toList),
    ("created_time".toList, J.jstr "2024-01-02".toList),
    ("properties".toList, J.jobj [("Title".toList, J.jobj [("title".toList,
      J.jarr [J.jobj [("plain_text".toList, J.jstr "Doc three".toList)]])])])]

/-- Backend search response of the C8 scenario: three rows with row 2
malformed. -/
def c8SearchResult : J :=
  J.jobj [("results".toList, J.jarr [c8Row1, c8Row2Malformed, c8Row3])]

/-- C8: confirmed. For every list of result rows, search returns
exactly the successfully parsed rows in order (skipping each row whose
parse raises) with `total_count` equal to their number; in the concrete
scenario where row 2 of 3 is malformed (missing `name` under a truthy
`select`), the result holds summaries for rows 1 and 3 only with
`total_count = 2`. -/
theorem claim_C8_search_skips_malformed :
    (∀ (rows : List J) (nowIso : PyStr),
      search_documents_process (J.jobj [("results".toList, J.jarr rows)]) nowIso =
        Except.ok { results := searchCollect rows nowIso,
                    total_count := (searchCollect rows nowIso).length } ∧
      searchCollect rows nowIso =
        rows.filterMap (fun r => (parse_page_summary r nowIso).toOption)) ∧
    (search_documents_process c8SearchResult "NOW".toList).toOption.map
        (fun r => (r.total_count, r.results.map DocumentSummary.title)) =
      some (2, ["Doc one".toList, "Doc three".toList]) ∧
    (parse_page_summary c8Row2Malformed "NOW".toList).toOption = none := by
  refine ⟨fun rows nowIso => ⟨rfl, searchCollect_filterMap rows nowIso⟩, rfl, rfl⟩
